import Mathlib

/-!
# linux_timer: a shallow embedding of `linux_timer.c` / `linux_timer.h`

The C module wraps one POSIX interval timer (`timer_create`, `timer_settime`,
`timer_delete`) in a `linux_timer_t` object.  The embedding is state passing:

* `linux_timer_t` is the struct of `linux_timer.h`;
* `World` holds the one Timer object the pointer argument refers to, the state
  of the operating system timer facility, and a trace of every call that left
  the module (OS calls and callback invocations), most recent first;
* the result of each OS call (`0` or `-1` in C) is an argument of the embedded
  function, since it is decided by the operating system and not by the module.

Machine integers: `uint32_t` is `Nat` with explicit reduction modulo `2^32`,
`int32_t` is `Int` (the only arithmetic on it, a decrement of a positive
value, cannot leave the range).  The OS handle `timer_t` and the user data
pointer are `Nat` with `0` for `NULL`, a callback is `Option Nat`, and a
pointer to the Timer object is a `TimerPtr`.  A callback is a function the
module knows nothing about: calling it is recorded in the trace together with
the Timer it is handed, and has no other effect on the world.
-/

namespace LinuxTimer

/-! ## Data model -/

/-- The C `struct timespec`: seconds and nanoseconds, both signed. -/
structure timespec where
  tv_sec : Int
  tv_nsec : Int
deriving DecidableEq, Repr

/-- The C `struct itimerspec`: repeat interval and initial delay. -/
structure itimerspec where
  it_interval : timespec
  it_value : timespec
deriving DecidableEq, Repr

/-- The struct `linux_timer_t` of `linux_timer.h`, field for field.
`timer_id = 0` is the `NULL` handle, `timer_cb = none` the `NULL` callback;
a callback is a function pointer, represented by its address. -/
structure linux_timer_t where
  timer_id : Nat
  timer_cb : Option Nat
  repeat_count : Int
  user_data : Nat
  timeout : Nat
deriving DecidableEq, Repr

/-- A pointer of type `linux_timer_t *`: `NULL`, or the address of the Timer
object held in the `World`. -/
inductive TimerPtr where
  | null
  | obj
deriving DecidableEq, Repr

/-- The notification kinds of `struct sigevent`; the module uses `SIGEV_THREAD`. -/
inductive SigevNotify where
  | SIGEV_SIGNAL
  | SIGEV_NONE
  | SIGEV_THREAD
deriving DecidableEq, Repr

/-- The clocks of `timer_create`; the module uses `CLOCK_MONOTONIC`. -/
inductive ClockId where
  | CLOCK_REALTIME
  | CLOCK_MONOTONIC
deriving DecidableEq, Repr

/-- The part of `struct sigevent` that `linux_timer_create` fills in:
notification kind, whether the notify function is `linux_timer_thread`, and
the context pointer handed to it. -/
structure sigevent where
  sigev_notify : SigevNotify
  notify_is_linux_timer_thread : Bool
  sival_ptr : TimerPtr
deriving DecidableEq, Repr

/-- One call leaving the module.  `os_timer_create` carries the handle the OS
returned (`none` for the `-1` result), `os_timer_settime` and
`os_timer_delete` carry the handle addressed and whether the OS returned
success, `callback` carries the function pointer called and the Timer object
as the callee sees it through its `const` pointer argument. -/
inductive Event where
  | os_timer_create (clock : ClockId) (sev : sigevent) (res : Option Nat)
  | os_timer_settime (id : Nat) (spec : itimerspec) (ok : Bool)
  | os_timer_delete (id : Nat) (ok : Bool)
  | callback (cb : Nat) (arg : linux_timer_t)
deriving DecidableEq, Repr

/-- State of the OS timer facility: the handles currently allocated and the
schedule last programmed for each of them. -/
structure OS where
  live : List Nat
  sched : List (Nat × itimerspec)
deriving DecidableEq, Repr

/-- The Timer object, the OS timer facility and the trace (most recent
event first). -/
structure World where
  timer : linux_timer_t
  os : OS
  trace : List Event
deriving DecidableEq, Repr

/-! ## The OS timer facility (POSIX `timer_create`, `timer_settime`, `timer_delete`) -/

/-- POSIX `timer_create`: when the OS returns a handle it becomes allocated,
with no schedule; the call is traced either way. -/
def os_timer_create (res : Option Nat) (clock : ClockId) (sev : sigevent) (w : World) : World :=
  { w with
    os := match res with
      | some id => { w.os with live := id :: w.os.live }
      | none => w.os
    trace := Event.os_timer_create clock sev res :: w.trace }

/-- POSIX `timer_settime` with flags `0` and no old value: on success the
schedule of the handle is replaced by `spec`; the call is traced either way.
Schedules are keyed by the handle value passed.  Which OS timer a handle that
`timer_create` never returned (`NULL` included) resolves to is not modelled,
so nothing is concluded from the OS state after an arm call on such a handle. -/
def os_timer_settime (ok : Bool) (id : Nat) (spec : itimerspec) (w : World) : World :=
  { w with
    os := if ok then { w.os with sched := (id, spec) :: w.os.sched.filter (fun e => e.1 ≠ id) }
          else w.os
    trace := Event.os_timer_settime id spec ok :: w.trace }

/-- POSIX `timer_delete`: on success the handle is no longer allocated and
its schedule is gone; the call is traced either way. -/
def os_timer_delete (ok : Bool) (id : Nat) (w : World) : World :=
  { w with
    os := if ok then { live := w.os.live.filter (fun h => h ≠ id),
                       sched := w.os.sched.filter (fun e => e.1 ≠ id) }
          else w.os
    trace := Event.os_timer_delete id ok :: w.trace }

/-- The schedule the OS currently holds for a handle, if any. -/
def os_schedule (os : OS) (id : Nat) : Option itimerspec :=
  (os.sched.find? (fun e => e.1 = id)).map (fun e => e.2)

/-! ## Integer arithmetic of the module -/

/-- Reduction to `uint32_t`. -/
def u32 (n : Nat) : Nat := n % 4294967296

/-- The seconds part `(timeout / 1000)` of lines 75, 77, 146, 148, 193, 241,
243, evaluated in `uint32_t`. -/
def ms_sec (timeout : Nat) : Nat := u32 (u32 timeout / 1000)

/-- The nanoseconds part `((timeout % 1000) * 1000 * 1000)` of lines 76, 78,
147, 149, 194, 242, 244, every intermediate result reduced to `uint32_t`. -/
def ms_nsec (timeout : Nat) : Nat := u32 (u32 (u32 (u32 timeout % 1000) * 1000) * 1000)

/-- The `timespec` each arming function computes from a millisecond timeout;
the `uint32_t` results are widened to the signed fields. -/
def ms_to_timespec (timeout : Nat) : timespec :=
  { tv_sec := (ms_sec timeout : Int), tv_nsec := (ms_nsec timeout : Int) }

/-- The value of `struct itimerspec timer_spec = {0}`. -/
def itimerspec_zero : itimerspec :=
  { it_interval := { tv_sec := 0, tv_nsec := 0 }, it_value := { tv_sec := 0, tv_nsec := 0 } }

/-! ## The functions of `linux_timer.c` -/

/-- The function `linux_timer_delete` (lines 95-110).  The pointer is
dereferenced without a check, so the argument is the Timer object itself.
`delOk` is the result of `timer_delete`. -/
def linux_timer_delete (delOk : Bool) (w : World) : Bool × World :=
  if w.timer.timer_id = 0 then
    (true, w)
  else
    let w1 := os_timer_delete delOk w.timer.timer_id w
    if delOk = false then
      (false, w1)
    else
      (true, { w1 with timer := { w1.timer with timer_id := 0 } })

/-- The dispatch handler `linux_timer_thread` (lines 23-45); `p` is
`sigev_value.sival_ptr`, `delOk` the result of `timer_delete` should the
handler reach it. -/
def linux_timer_thread (delOk : Bool) (p : TimerPtr) (w : World) : World :=
  match p with
  | TimerPtr.null => w
  | TimerPtr.obj =>
    let w1 : World :=
      if w.timer.repeat_count > 0 then
        { w with timer := { w.timer with repeat_count := w.timer.repeat_count - 1 } }
      else w
    let w2 : World :=
      if w1.timer.repeat_count = 0 then (linux_timer_delete delOk w1).2 else w1
    match w2.timer.timer_cb with
    | some cb => { w2 with trace := Event.callback cb w2.timer :: w2.trace }
    | none => w2

/-- The `struct sigevent` built at lines 59-63 of `linux_timer_create`. -/
def create_sigevent : sigevent :=
  { sigev_notify := SigevNotify.SIGEV_THREAD,
    notify_is_linux_timer_thread := true,
    sival_ptr := TimerPtr.obj }

/-- The function `linux_timer_create` (lines 56-87).  The pointer is
dereferenced without a check, so the argument is the Timer object itself.
`createRes` is the handle written by `timer_create` (`none` when it returns
`-1`), `armOk` the result of `timer_settime`. -/
def linux_timer_create (createRes : Option Nat) (armOk : Bool)
    (timer_cb : Option Nat) (timeout : Nat) (user_data : Nat) (w : World) : Bool × World :=
  let w1 := os_timer_create createRes ClockId.CLOCK_MONOTONIC create_sigevent w
  match createRes with
  | none => (false, w1)
  | some id =>
    let w2 : World :=
      { w1 with timer := { w1.timer with
          timer_id := id, timer_cb := timer_cb, repeat_count := -1, user_data := user_data } }
    let timer_spec : itimerspec :=
      { it_interval := ms_to_timespec timeout, it_value := ms_to_timespec timeout }
    let w3 := os_timer_settime armOk w2.timer.timer_id timer_spec w2
    if armOk = false then
      (false, w3)
    else
      (true, { w3 with timer := { w3.timer with timeout := u32 timeout } })

/-- The function `linux_timer_set_cb` (lines 119-129). -/
def linux_timer_set_cb (p : TimerPtr) (timer_cb : Option Nat) (w : World) : Bool × World :=
  match p with
  | TimerPtr.null => (false, w)
  | TimerPtr.obj => (true, { w with timer := { w.timer with timer_cb := timer_cb } })

/-- The function `linux_timer_set_timeout` (lines 138-158); `armOk` is the
result of `timer_settime`. -/
def linux_timer_set_timeout (armOk : Bool) (p : TimerPtr) (timeout : Nat) (w : World) :
    Bool × World :=
  match p with
  | TimerPtr.null => (false, w)
  | TimerPtr.obj =>
    let timer_spec : itimerspec :=
      { it_interval := ms_to_timespec timeout, it_value := ms_to_timespec timeout }
    let w1 := os_timer_settime armOk w.timer.timer_id timer_spec w
    if armOk = false then
      (false, w1)
    else
      (true, { w1 with timer := { w1.timer with timeout := u32 timeout } })

/-- The function `linux_timer_set_repeat_count` (lines 167-177). -/
def linux_timer_set_repeat_count (p : TimerPtr) (repeat_count : Int) (w : World) :
    Bool × World :=
  match p with
  | TimerPtr.null => (false, w)
  | TimerPtr.obj => (true, { w with timer := { w.timer with repeat_count := repeat_count } })

/-- The function `linux_timer_ready` (lines 185-203); `armOk` is the result
of `timer_settime`. -/
def linux_timer_ready (armOk : Bool) (p : TimerPtr) (w : World) : Bool × World :=
  match p with
  | TimerPtr.null => (false, w)
  | TimerPtr.obj =>
    let timer_spec : itimerspec :=
      { it_interval := ms_to_timespec w.timer.timeout,
        it_value := { tv_sec := 0, tv_nsec := 1 } }
    let w1 := os_timer_settime armOk w.timer.timer_id timer_spec w
    if armOk = false then (false, w1) else (true, w1)

/-- The function `linux_timer_pause` (lines 211-225); `armOk` is the result
of `timer_settime`. -/
def linux_timer_pause (armOk : Bool) (p : TimerPtr) (w : World) : Bool × World :=
  match p with
  | TimerPtr.null => (false, w)
  | TimerPtr.obj =>
    let w1 := os_timer_settime armOk w.timer.timer_id itimerspec_zero w
    if armOk = false then (false, w1) else (true, w1)

/-- The function `linux_timer_resume` (lines 233-251); `armOk` is the result
of `timer_settime`. -/
def linux_timer_resume (armOk : Bool) (p : TimerPtr) (w : World) : Bool × World :=
  match p with
  | TimerPtr.null => (false, w)
  | TimerPtr.obj =>
    let timer_spec : itimerspec :=
      { it_interval := ms_to_timespec w.timer.timeout,
        it_value := ms_to_timespec w.timer.timeout }
    let w1 := os_timer_settime armOk w.timer.timer_id timer_spec w
    if armOk = false then (false, w1) else (true, w1)

/-! ## Derived notions used by the statements -/

/-- The OS delivers `k` expirations in a row: `k` runs of the dispatch
handler on the Timer object, run `i` (counted from `0`) seeing `delOk i` as
the result of `timer_delete` should it reach that call. -/
def fire (delOk : Nat → Bool) : Nat → World → World
  | 0, w => w
  | k + 1, w => linux_timer_thread (delOk k) TimerPtr.obj (fire delOk k w)

/-- Whether a trace entry is a callback invocation. -/
def Event.is_callback : Event → Bool
  | Event.callback _ _ => true
  | _ => false

/-- Number of callback invocations in a trace. -/
def callback_count (tr : List Event) : Nat := (tr.filter Event.is_callback).length

/-- The events a dispatch handler run adds for the callback at line 43: one
invocation on the Timer as it then is, or nothing for a `NULL` callback. -/
def callback_events (t : linux_timer_t) : List Event :=
  match t.timer_cb with
  | some cb => [Event.callback cb t]
  | none => []

/-- The schedule most recently applied successfully to handle `id`,
read off the trace. -/
def last_applied (id : Nat) : List Event → Option itimerspec
  | [] => none
  | Event.os_timer_settime i spec true :: rest =>
    if i = id then some spec else last_applied id rest
  | _ :: rest => last_applied id rest

/-- A call of one of the six reconfiguration functions on the Timer object,
with the result of the OS call it makes, if it makes one. -/
inductive Op where
  | set_cb (timer_cb : Option Nat)
  | set_timeout (armOk : Bool) (timeout : Nat)
  | set_repeat_count (repeat_count : Int)
  | ready (armOk : Bool)
  | pause (armOk : Bool)
  | resume (armOk : Bool)
deriving DecidableEq, Repr

/-- The state after one reconfiguration call. -/
def apply_op (w : World) : Op → World
  | Op.set_cb cb => (linux_timer_set_cb TimerPtr.obj cb w).2
  | Op.set_timeout armOk t => (linux_timer_set_timeout armOk TimerPtr.obj t w).2
  | Op.set_repeat_count n => (linux_timer_set_repeat_count TimerPtr.obj n w).2
  | Op.ready armOk => (linux_timer_ready armOk TimerPtr.obj w).2
  | Op.pause armOk => (linux_timer_pause armOk TimerPtr.obj w).2
  | Op.resume armOk => (linux_timer_resume armOk TimerPtr.obj w).2

/-- The state after a sequence of reconfiguration calls, first call first. -/
def run_ops (ops : List Op) (w : World) : World := ops.foldl apply_op w

/-- A zero-initialised Timer object (`linux_timer_t t = {0}`). -/
def linux_timer_zero : linux_timer_t :=
  { timer_id := 0, timer_cb := none, repeat_count := 0, user_data := 0, timeout := 0 }

/-- A world with a zero-initialised Timer, no OS timer allocated and an
empty trace. -/
def World.start : World :=
  { timer := linux_timer_zero, os := { live := [], sched := [] }, trace := [] }

/-- The repeat interval of the schedule most recently applied successfully
to handle `id`. -/
def last_applied_interval (id : Nat) (tr : List Event) : Option timespec :=
  (last_applied id tr).map (fun spec => spec.it_interval)

/-- A Timer created with handle 5, callback 9 and timeout 100 ms on a fresh
world, both OS calls succeeding. -/
def World.created : World := (linux_timer_create (some 5) true (some 9) 100 0 World.start).2

/-- The relation between the stored timeout and the OS schedule that the
reconfiguration functions maintain: the stored timeout is a `uint32_t` value,
the schedule the OS holds for the Timer handle is the one most recently
applied successfully, and that schedule is the all-zero one or repeats at the
stored timeout. -/
def timeout_inv (w : World) : Prop :=
  w.timer.timeout < 4294967296
  ∧ os_schedule w.os w.timer.timer_id = last_applied w.timer.timer_id w.trace
  ∧ (last_applied w.timer.timer_id w.trace = some itimerspec_zero
      ∨ last_applied_interval w.timer.timer_id w.trace
          = some (ms_to_timespec w.timer.timeout))

/-! ## Arithmetic lemmas -/

theorem u32_of_lt {n : Nat} (h : n < 4294967296) : u32 n = n := Nat.mod_eq_of_lt h

theorem ms_sec_eq {t : Nat} (ht : t < 4294967296) : ms_sec t = t / 1000 := by
  unfold ms_sec u32
  omega

theorem ms_nsec_eq {t : Nat} (ht : t < 4294967296) : ms_nsec t = t % 1000 * 1000 * 1000 := by
  unfold ms_nsec
  rw [u32_of_lt ht, u32_of_lt (n := t % 1000) (by omega),
    u32_of_lt (n := t % 1000 * 1000) (by omega), u32_of_lt]
  omega

theorem ms_to_timespec_eq {t : Nat} (ht : t < 4294967296) :
    ms_to_timespec t
      = { tv_sec := ((t / 1000 : Nat) : Int), tv_nsec := ((t % 1000 * 1000000 : Nat) : Int) } := by
  unfold ms_to_timespec
  rw [ms_sec_eq ht, ms_nsec_eq ht, Nat.mul_assoc]

theorem os_schedule_settime (id : Nat) (spec : itimerspec) (w : World) :
    os_schedule (os_timer_settime true id spec w).os id = some spec := by
  simp [os_schedule, os_timer_settime]

theorem u32_lt (n : Nat) : u32 n < 4294967296 := Nat.mod_lt _ (by decide)

theorem ms_to_timespec_u32 (t : Nat) : ms_to_timespec (u32 t) = ms_to_timespec t := by
  have h : u32 (u32 t) = u32 t := u32_of_lt (u32_lt t)
  simp [ms_to_timespec, ms_sec, ms_nsec, h]

/-! ## Lemmas on the stored timeout -/

/-- A successful arm call with a matching interval establishes the relation. -/
theorem timeout_inv_arm (w : World) (spec : itimerspec) (t : linux_timer_t)
    (hid : t.timer_id = w.timer.timer_id) (ht : t.timeout < 4294967296)
    (hspec : spec = itimerspec_zero ∨ spec.it_interval = ms_to_timespec t.timeout) :
    timeout_inv { os_timer_settime true w.timer.timer_id spec w with timer := t } := by
  refine ⟨ht, ?_, ?_⟩
  · simp [os_timer_settime, os_schedule, last_applied, hid]
  · rcases hspec with h | h
    · left
      simp [os_timer_settime, last_applied, hid, h]
    · right
      simp [os_timer_settime, last_applied, last_applied_interval, hid, h]

/-- A rejected arm call keeps the relation. -/
theorem timeout_inv_reject (w : World) (spec : itimerspec) (h : timeout_inv w) :
    timeout_inv (os_timer_settime false w.timer.timer_id spec w) := by
  obtain ⟨h1, h2, h3⟩ := h
  refine ⟨h1, ?_, ?_⟩
  · simpa [os_timer_settime, last_applied] using h2
  · simpa [os_timer_settime, last_applied, last_applied_interval] using h3

theorem timeout_inv_create (w0 : World) (createRes : Option Nat) (armOk : Bool)
    (cb : Option Nat) (timeout ud : Nat)
    (hc : (linux_timer_create createRes armOk cb timeout ud w0).1 = true) :
    timeout_inv (linux_timer_create createRes armOk cb timeout ud w0).2 := by
  cases createRes with
  | none => simp [linux_timer_create] at hc
  | some id =>
    cases armOk with
    | false => simp [linux_timer_create] at hc
    | true =>
      refine ⟨?_, ?_, ?_⟩
      · simp [linux_timer_create, u32_lt]
      · simp [linux_timer_create, os_timer_settime, os_timer_create, os_schedule, last_applied]
      · right
        simp [linux_timer_create, os_timer_settime, os_timer_create, last_applied,
          last_applied_interval, ms_to_timespec_u32]

theorem timeout_inv_apply_op (w : World) (op : Op) (h : timeout_inv w) :
    timeout_inv (apply_op w op) := by
  cases op with
  | set_cb cb => exact h
  | set_repeat_count n => exact h
  | set_timeout armOk t =>
    cases armOk with
    | false => exact timeout_inv_reject w _ h
    | true =>
      exact timeout_inv_arm w _ { w.timer with timeout := u32 t } rfl (u32_lt t)
        (Or.inr (ms_to_timespec_u32 t).symm)
  | ready armOk =>
    cases armOk with
    | false => exact timeout_inv_reject w _ h
    | true => exact timeout_inv_arm w _ w.timer rfl h.1 (Or.inr rfl)
  | pause armOk =>
    cases armOk with
    | false => exact timeout_inv_reject w _ h
    | true => exact timeout_inv_arm w _ w.timer rfl h.1 (Or.inl rfl)
  | resume armOk =>
    cases armOk with
    | false => exact timeout_inv_reject w _ h
    | true => exact timeout_inv_arm w _ w.timer rfl h.1 (Or.inr rfl)

theorem timeout_inv_run_ops (ops : List Op) :
    ∀ w : World, timeout_inv w → timeout_inv (run_ops ops w) := by
  induction ops with
  | nil => exact fun _ h => h
  | cons op ops ih =>
    intro w h
    exact ih (apply_op w op) (timeout_inv_apply_op w op h)

/-! ## Lemmas on the dispatch handler -/

theorem callback_count_callback_events (t : linux_timer_t) (tr : List Event) :
    callback_count (callback_events t ++ tr)
      = callback_count tr + (if t.timer_cb.isSome then 1 else 0) := by
  unfold callback_events callback_count
  cases h : t.timer_cb <;> simp [Event.is_callback]

/-- A run of the handler on a count above one: decrement, no delete. -/
theorem thread_count_gt_one (d : Bool) (w : World) (h : 1 < w.timer.repeat_count) :
    linux_timer_thread d TimerPtr.obj w
      = { timer := { w.timer with repeat_count := w.timer.repeat_count - 1 },
          os := w.os,
          trace := callback_events { w.timer with repeat_count := w.timer.repeat_count - 1 }
                    ++ w.trace } := by
  have h0 : w.timer.repeat_count > 0 := by omega
  have h1 : ¬ (w.timer.repeat_count - 1 = 0) := by omega
  unfold linux_timer_thread callback_events
  cases hcb : w.timer.timer_cb <;> simp [h0, h1, hcb]

/-- A run of the handler on count one with the handle set and the OS release
succeeding: decrement, release, clear the handle, then the callback. -/
theorem thread_count_one (w : World) (h : w.timer.repeat_count = 1)
    (hid : w.timer.timer_id ≠ 0) :
    linux_timer_thread true TimerPtr.obj w
      = { timer := { w.timer with repeat_count := 0, timer_id := 0 },
          os := (os_timer_delete true w.timer.timer_id w).os,
          trace := callback_events { w.timer with repeat_count := 0, timer_id := 0 }
                    ++ Event.os_timer_delete w.timer.timer_id true :: w.trace } := by
  unfold linux_timer_thread callback_events linux_timer_delete
  cases hcb : w.timer.timer_cb <;> simp [h, hid, hcb, os_timer_delete]

/-- A run of the handler on a negative count changes nothing but the trace,
to which it adds the callback invocation. -/
theorem thread_count_neg (d : Bool) (w : World) (h : w.timer.repeat_count < 0) :
    linux_timer_thread d TimerPtr.obj w
      = { w with trace := callback_events w.timer ++ w.trace } := by
  have h0 : ¬ (w.timer.repeat_count > 0) := by omega
  have h1 : ¬ (w.timer.repeat_count = 0) := by omega
  unfold linux_timer_thread callback_events
  cases hcb : w.timer.timer_cb <;> simp [h0, h1, hcb]

/-- While fewer firings than the count have happened, the Timer differs from
the initial one in the count alone and the OS state is untouched. -/
theorem fire_below_count (delOk : Nat → Bool) (w : World) (N : Nat)
    (hN : w.timer.repeat_count = (N : Int)) :
    ∀ k, k < N →
      (fire delOk k w).timer = { w.timer with repeat_count := (N : Int) - (k : Int) }
      ∧ (fire delOk k w).os = w.os := by
  intro k
  induction k with
  | zero =>
    intro _
    simp [fire, ← hN]
  | succ k ih =>
    intro hk
    obtain ⟨ht, hos⟩ := ih (by omega)
    have hgt : 1 < (fire delOk k w).timer.repeat_count := by
      rw [ht]
      simp only
      omega
    simp only [fire]
    rw [thread_count_gt_one _ _ hgt]
    simp only [ht, hos, and_true]
    congr 1
    push_cast
    ring

/-- Any number of firings on a negative count leaves Timer and OS untouched. -/
theorem fire_negative (delOk : Nat → Bool) (w : World) (h : w.timer.repeat_count < 0) :
    ∀ k, (fire delOk k w).timer = w.timer ∧ (fire delOk k w).os = w.os := by
  intro k
  induction k with
  | zero => simp [fire]
  | succ k ih =>
    obtain ⟨ht, hos⟩ := ih
    have hneg : (fire delOk k w).timer.repeat_count < 0 := by rw [ht]; exact h
    simp only [fire]
    rw [thread_count_neg _ _ hneg]
    exact ⟨ht, hos⟩

/-- Every run of the handler keeps the callback field and adds exactly one
callback invocation to the trace when a callback is present, none otherwise. -/
theorem thread_callback_count (d : Bool) (w : World) :
    (linux_timer_thread d TimerPtr.obj w).timer.timer_cb = w.timer.timer_cb
    ∧ callback_count (linux_timer_thread d TimerPtr.obj w).trace
        = callback_count w.trace + (if w.timer.timer_cb.isSome then 1 else 0) := by
  unfold linux_timer_thread linux_timer_delete os_timer_delete callback_count
  cases hcb : w.timer.timer_cb <;> cases d <;>
    by_cases h0 : w.timer.repeat_count > 0 <;>
    by_cases h1 : w.timer.repeat_count - 1 = 0 <;>
    by_cases h2 : w.timer.repeat_count = 0 <;>
    by_cases h3 : w.timer.timer_id = 0 <;>
    simp [hcb, h0, h1, h2, h3, Event.is_callback]

theorem fire_callback_count (delOk : Nat → Bool) (w : World) :
    ∀ k, (fire delOk k w).timer.timer_cb = w.timer.timer_cb
      ∧ callback_count (fire delOk k w).trace
          = callback_count w.trace + (if w.timer.timer_cb.isSome then k else 0) := by
  intro k
  induction k with
  | zero => simp [fire]
  | succ k ih =>
    obtain ⟨hcb, hcnt⟩ := ih
    obtain ⟨hcb1, hcnt1⟩ := thread_callback_count (delOk k) (fire delOk k w)
    simp only [fire]
    refine ⟨hcb1.trans hcb, ?_⟩
    rw [hcnt1, hcnt, hcb]
    split_ifs <;> omega

/-! ## C9: the millisecond conversion -/

/-- C9: for every 32-bit unsigned timeout `t`, the conversion computed by
create, set_timeout, ready and resume in 32-bit unsigned arithmetic does not
overflow (each product stays below `2^32`, so the reduced results are the
exact ones), yields `0 <= nsec < 1,000,000,000`, is lossless
(`sec * 1000 + nsec / 1,000,000 = t`), and is the all-zero timespec exactly
when `t = 0`. -/
theorem ms_to_timespec_lossless (t : Nat) (ht : t < 4294967296) :
    (t % 1000 * 1000 < 4294967296 ∧ t % 1000 * 1000 * 1000 < 4294967296)
    ∧ (ms_to_timespec t).tv_sec = ((t / 1000 : Nat) : Int)
    ∧ (ms_to_timespec t).tv_nsec = ((t % 1000 * 1000 * 1000 : Nat) : Int)
    ∧ 0 ≤ (ms_to_timespec t).tv_nsec
    ∧ (ms_to_timespec t).tv_nsec < 1000000000
    ∧ (ms_to_timespec t).tv_sec * 1000 + (ms_to_timespec t).tv_nsec / 1000000 = (t : Int)
    ∧ (ms_to_timespec t = { tv_sec := 0, tv_nsec := 0 } ↔ t = 0) := by
  have hs := ms_sec_eq ht
  have hn := ms_nsec_eq ht
  refine ⟨⟨by omega, by omega⟩, ?_, ?_, ?_, ?_, ?_, ?_⟩
  · simp [ms_to_timespec, hs]
  · simp [ms_to_timespec, hn]
  · simp [ms_to_timespec]
  · simp only [ms_to_timespec, hn]
    omega
  · simp only [ms_to_timespec, hs, hn]
    omega
  · simp only [ms_to_timespec, hs, hn, timespec.mk.injEq]
    omega

/-- Witness for C9 at `t = 1500`. -/
theorem ms_to_timespec_lossless_witness :
    (1500 % 1000 * 1000 < 4294967296 ∧ 1500 % 1000 * 1000 * 1000 < 4294967296)
    ∧ (ms_to_timespec 1500).tv_sec = ((1500 / 1000 : Nat) : Int)
    ∧ (ms_to_timespec 1500).tv_nsec = ((1500 % 1000 * 1000 * 1000 : Nat) : Int)
    ∧ 0 ≤ (ms_to_timespec 1500).tv_nsec
    ∧ (ms_to_timespec 1500).tv_nsec < 1000000000
    ∧ (ms_to_timespec 1500).tv_sec * 1000 + (ms_to_timespec 1500).tv_nsec / 1000000
        = ((1500 : Nat) : Int)
    ∧ (ms_to_timespec 1500 = { tv_sec := 0, tv_nsec := 0 } ↔ 1500 = 0) :=
  ms_to_timespec_lossless 1500 (by decide)

/-! ## C3: delete is idempotent -/

/-- C3: `linux_timer_delete` on a Timer whose handle is unset returns true
and leaves the whole world as it was (no OS call, no field changed).  When
the OS release succeeds, delete returns true and leaves the handle cleared;
on an armed Timer it made exactly one release call, for that handle, which is
then no longer allocated, and changed no other field.  A second delete right
after returns true, whatever the OS would answer, and leaves the state of the
first. -/
theorem linux_timer_delete_idempotent (w : World) (d d2 : Bool) :
    (w.timer.timer_id = 0 → linux_timer_delete d w = (true, w))
    ∧ (linux_timer_delete true w).1 = true
    ∧ (linux_timer_delete true w).2.timer.timer_id = 0
    ∧ (w.timer.timer_id ≠ 0 →
        (linux_timer_delete true w).2.trace
            = Event.os_timer_delete w.timer.timer_id true :: w.trace
        ∧ w.timer.timer_id ∉ (linux_timer_delete true w).2.os.live
        ∧ (linux_timer_delete true w).2.timer = { w.timer with timer_id := 0 })
    ∧ linux_timer_delete d2 (linux_timer_delete true w).2
        = (true, (linux_timer_delete true w).2) := by
  by_cases h : w.timer.timer_id = 0
  · simp [linux_timer_delete, h]
  · simp [linux_timer_delete, h, os_timer_delete, List.mem_filter]

/-- Witness for C3: a never-created Timer, and a Timer armed with handle 5. -/
theorem linux_timer_delete_idempotent_witness :
    linux_timer_delete false World.start = (true, World.start)
    ∧ ((linux_timer_delete true
          { timer := { linux_timer_zero with timer_id := 5 },
            os := { live := [5], sched := [] }, trace := [] }).2.trace
        = [Event.os_timer_delete 5 true]
      ∧ 5 ∉ (linux_timer_delete true
          { timer := { linux_timer_zero with timer_id := 5 },
            os := { live := [5], sched := [] }, trace := [] }).2.os.live
      ∧ (linux_timer_delete true
          { timer := { linux_timer_zero with timer_id := 5 },
            os := { live := [5], sched := [] }, trace := [] }).2.timer
        = { linux_timer_zero with timer_id := 0 }) :=
  ⟨(linux_timer_delete_idempotent World.start false false).1 (by decide),
   (linux_timer_delete_idempotent
      { timer := { linux_timer_zero with timer_id := 5 },
        os := { live := [5], sched := [] }, trace := [] } false false).2.2.2.1 (by decide)⟩

/-! ## C4: pause and resume -/

/-- C4: with stored timeout `t` and the OS arm calls succeeding, pause
programs the all-zero schedule for the handle and changes no Timer field; a
following resume programs interval = initial delay =
`(t / 1000 s, (t % 1000) * 1,000,000 ns)` and changes no Timer field; create
with the same timeout `t` programs that same schedule for the handle it
obtained. -/
theorem pause_resume_schedule (w w0 : World) (id0 : Nat) (cb : Option Nat) (ud : Nat)
    (ht : w.timer.timeout < 4294967296) :
    (linux_timer_pause true TimerPtr.obj w).1 = true
    ∧ (linux_timer_pause true TimerPtr.obj w).2.timer = w.timer
    ∧ (linux_timer_pause true TimerPtr.obj w).2.trace
        = Event.os_timer_settime w.timer.timer_id
            { it_interval := { tv_sec := 0, tv_nsec := 0 },
              it_value := { tv_sec := 0, tv_nsec := 0 } } true :: w.trace
    ∧ os_schedule (linux_timer_pause true TimerPtr.obj w).2.os w.timer.timer_id
        = some { it_interval := { tv_sec := 0, tv_nsec := 0 },
                 it_value := { tv_sec := 0, tv_nsec := 0 } }
    ∧ (linux_timer_resume true TimerPtr.obj (linux_timer_pause true TimerPtr.obj w).2).1 = true
    ∧ (linux_timer_resume true TimerPtr.obj (linux_timer_pause true TimerPtr.obj w).2).2.timer
        = w.timer
    ∧ (linux_timer_resume true TimerPtr.obj (linux_timer_pause true TimerPtr.obj w).2).2.trace
        = Event.os_timer_settime w.timer.timer_id
            { it_interval := { tv_sec := ((w.timer.timeout / 1000 : Nat) : Int),
                               tv_nsec := ((w.timer.timeout % 1000 * 1000000 : Nat) : Int) },
              it_value := { tv_sec := ((w.timer.timeout / 1000 : Nat) : Int),
                            tv_nsec := ((w.timer.timeout % 1000 * 1000000 : Nat) : Int) } } true
          :: (linux_timer_pause true TimerPtr.obj w).2.trace
    ∧ os_schedule
          (linux_timer_resume true TimerPtr.obj (linux_timer_pause true TimerPtr.obj w).2).2.os
          w.timer.timer_id
        = some
            { it_interval := { tv_sec := ((w.timer.timeout / 1000 : Nat) : Int),
                               tv_nsec := ((w.timer.timeout % 1000 * 1000000 : Nat) : Int) },
              it_value := { tv_sec := ((w.timer.timeout / 1000 : Nat) : Int),
                            tv_nsec := ((w.timer.timeout % 1000 * 1000000 : Nat) : Int) } }
    ∧ os_schedule (linux_timer_create (some id0) true cb w.timer.timeout ud w0).2.os id0
        = os_schedule
            (linux_timer_resume true TimerPtr.obj (linux_timer_pause true TimerPtr.obj w).2).2.os
            w.timer.timer_id
    ∧ (linux_timer_create (some id0) true cb w.timer.timeout ud w0).2.trace.head?
        = some (Event.os_timer_settime id0
            { it_interval := { tv_sec := ((w.timer.timeout / 1000 : Nat) : Int),
                               tv_nsec := ((w.timer.timeout % 1000 * 1000000 : Nat) : Int) },
              it_value := { tv_sec := ((w.timer.timeout / 1000 : Nat) : Int),
                            tv_nsec := ((w.timer.timeout % 1000 * 1000000 : Nat) : Int) } } true) := by
  simp [linux_timer_pause, linux_timer_resume, linux_timer_create, os_timer_settime,
    os_timer_create, os_schedule, itimerspec_zero, ms_to_timespec_eq ht]

/-- Witness for C4: a Timer armed with handle 5 and timeout 1500 ms. -/
theorem pause_resume_schedule_witness :
    os_schedule
        (linux_timer_resume true TimerPtr.obj
          (linux_timer_pause true TimerPtr.obj
            { timer := { linux_timer_zero with timer_id := 5, timeout := 1500 },
              os := { live := [5], sched := [] }, trace := [] }).2).2.os 5
      = some { it_interval := { tv_sec := 1, tv_nsec := 500000000 },
               it_value := { tv_sec := 1, tv_nsec := 500000000 } } :=
  (pause_resume_schedule
    { timer := { linux_timer_zero with timer_id := 5, timeout := 1500 },
      os := { live := [5], sched := [] }, trace := [] } World.start 5 none 0
    (by decide)).2.2.2.2.2.2.2.1

/-! ## C5: set_timeout -/

/-- C5: on a non-null Timer, `linux_timer_set_timeout` requests from the OS
the schedule interval = initial delay =
`(timeout_ms / 1000 s, (timeout_ms % 1000) * 1,000,000 ns)` for the Timer
handle.  When the OS accepts, it returns true, the stored timeout is
`timeout_ms` and every other field is unchanged; when the OS refuses, it
returns false and every field, the stored timeout included, is unchanged. -/
theorem linux_timer_set_timeout_spec (w : World) (armOk : Bool) (timeout_ms : Nat)
    (ht : timeout_ms < 4294967296) :
    (linux_timer_set_timeout armOk TimerPtr.obj timeout_ms w).2.trace
        = Event.os_timer_settime w.timer.timer_id
            { it_interval := { tv_sec := ((timeout_ms / 1000 : Nat) : Int),
                               tv_nsec := ((timeout_ms % 1000 * 1000000 : Nat) : Int) },
              it_value := { tv_sec := ((timeout_ms / 1000 : Nat) : Int),
                            tv_nsec := ((timeout_ms % 1000 * 1000000 : Nat) : Int) } } armOk
          :: w.trace
    ∧ (linux_timer_set_timeout true TimerPtr.obj timeout_ms w).1 = true
    ∧ (linux_timer_set_timeout true TimerPtr.obj timeout_ms w).2.timer
        = { w.timer with timeout := timeout_ms }
    ∧ (linux_timer_set_timeout false TimerPtr.obj timeout_ms w).1 = false
    ∧ (linux_timer_set_timeout false TimerPtr.obj timeout_ms w).2.timer = w.timer
    ∧ (linux_timer_set_timeout false TimerPtr.obj timeout_ms w).2.os = w.os := by
  cases armOk <;>
    simp [linux_timer_set_timeout, os_timer_settime, ms_to_timespec_eq ht, u32_of_lt ht]

/-- Witness for C5: setting 2750 ms on a Timer armed with handle 5. -/
theorem linux_timer_set_timeout_spec_witness :
    (linux_timer_set_timeout true TimerPtr.obj 2750
        { timer := { linux_timer_zero with timer_id := 5, timeout := 1500 },
          os := { live := [5], sched := [] }, trace := [] }).2.timer
      = { linux_timer_zero with timer_id := 5, timeout := 2750 } :=
  (linux_timer_set_timeout_spec
    { timer := { linux_timer_zero with timer_id := 5, timeout := 1500 },
      os := { live := [5], sched := [] }, trace := [] } true 2750 (by decide)).2.2.1

/-! ## C6: ready -/

/-- C6: on a non-null Timer with stored timeout `t`, `linux_timer_ready`
requests from the OS, for the Timer handle, the schedule with initial delay
`(0 s, 1 ns)` and repeat interval `(t / 1000 s, (t % 1000) * 1,000,000 ns)`;
it returns the result of the OS call and leaves every Timer field unchanged
in both cases.  The delay of 1 ns is the smallest positive one: no timespec
`d` with non-negative fields and a positive length is shorter. -/
theorem linux_timer_ready_spec (w : World) (armOk : Bool) (d : timespec)
    (ht : w.timer.timeout < 4294967296)
    (hd : 0 ≤ d.tv_sec ∧ 0 ≤ d.tv_nsec ∧ 0 < d.tv_sec * 1000000000 + d.tv_nsec) :
    (linux_timer_ready armOk TimerPtr.obj w).2.trace
        = Event.os_timer_settime w.timer.timer_id
            { it_interval := { tv_sec := ((w.timer.timeout / 1000 : Nat) : Int),
                               tv_nsec := ((w.timer.timeout % 1000 * 1000000 : Nat) : Int) },
              it_value := { tv_sec := 0, tv_nsec := 1 } } armOk
          :: w.trace
    ∧ (linux_timer_ready armOk TimerPtr.obj w).1 = armOk
    ∧ (linux_timer_ready armOk TimerPtr.obj w).2.timer = w.timer
    ∧ (0 : Int) * 1000000000 + 1 ≤ d.tv_sec * 1000000000 + d.tv_nsec := by
  refine ⟨?_, ?_, ?_, by omega⟩ <;>
    cases armOk <;> simp [linux_timer_ready, os_timer_settime, ms_to_timespec_eq ht]

/-- Witness for C6: a Timer armed with handle 5 and timeout 1500 ms. -/
theorem linux_timer_ready_spec_witness :
    (linux_timer_ready true TimerPtr.obj
        { timer := { linux_timer_zero with timer_id := 5, timeout := 1500 },
          os := { live := [5], sched := [] }, trace := [] }).2.trace
      = [Event.os_timer_settime 5
          { it_interval := { tv_sec := ((1500 / 1000 : Nat) : Int),
                             tv_nsec := ((1500 % 1000 * 1000000 : Nat) : Int) },
            it_value := { tv_sec := 0, tv_nsec := 1 } } true] :=
  (linux_timer_ready_spec
    { timer := { linux_timer_zero with timer_id := 5, timeout := 1500 },
      os := { live := [5], sched := [] }, trace := [] } true { tv_sec := 0, tv_nsec := 2 }
    (by decide) (by decide)).1

/-! ## C1: a finite repeat count -/

/-- C1: let the Timer be armed (handle set), let `1 <= N <= INT32_MAX`, call
`linux_timer_set_repeat_count(timer, N)` and let the dispatch handler run with
nothing in between, the OS release call succeeding.  Then for every `k < N`:
after `k` runs the handle and every other field but the count are as before
and `repeat_count = N - k`, and no OS state has changed; run `k + 1` adds to
the trace exactly one callback invocation when a callback is present (none
otherwise), and on run `N` the release of the handle comes before it, so that
the `N`-th invocation is handed a Timer whose handle is already cleared.  After `N`
runs `repeat_count = 0`, the handle is cleared and no longer allocated, and
the callback has been invoked `N` times. -/
theorem repeat_count_firings (w : World) (N k : Nat) (delOk : Nat → Bool)
    (hN : 1 ≤ N) (hmax : N ≤ 2147483647) (hid : w.timer.timer_id ≠ 0)
    (hok : delOk (N - 1) = true) (hk : k < N) :
    (linux_timer_set_repeat_count TimerPtr.obj (N : Int) w).1 = true
    ∧ (fire delOk k (linux_timer_set_repeat_count TimerPtr.obj (N : Int) w).2).timer
        = { w.timer with repeat_count := (N : Int) - (k : Int) }
    ∧ (fire delOk k (linux_timer_set_repeat_count TimerPtr.obj (N : Int) w).2).os = w.os
    ∧ (fire delOk (k + 1) (linux_timer_set_repeat_count TimerPtr.obj (N : Int) w).2).trace
        = callback_events
              (fire delOk (k + 1) (linux_timer_set_repeat_count TimerPtr.obj (N : Int) w).2).timer
          ++ (if k + 1 = N then [Event.os_timer_delete w.timer.timer_id true] else [])
          ++ (fire delOk k (linux_timer_set_repeat_count TimerPtr.obj (N : Int) w).2).trace
    ∧ (fire delOk N (linux_timer_set_repeat_count TimerPtr.obj (N : Int) w).2).timer
        = { w.timer with repeat_count := 0, timer_id := 0 }
    ∧ w.timer.timer_id
        ∉ (fire delOk N (linux_timer_set_repeat_count TimerPtr.obj (N : Int) w).2).os.live
    ∧ callback_count
          (fire delOk N (linux_timer_set_repeat_count TimerPtr.obj (N : Int) w).2).trace
        = callback_count w.trace + (if w.timer.timer_cb.isSome then N else 0) := by
  have hw0 : (linux_timer_set_repeat_count TimerPtr.obj (N : Int) w).2
      = { w with timer := { w.timer with repeat_count := (N : Int) } } := rfl
  rw [hw0]
  generalize hw0def : ({ w with timer := { w.timer with repeat_count := (N : Int) } } : World) = w0
  have hrc : w0.timer.repeat_count = (N : Int) := by rw [← hw0def]
  have ht0 : w0.timer = { w.timer with repeat_count := (N : Int) } := by rw [← hw0def]
  have hos0 : w0.os = w.os := by rw [← hw0def]
  have htr0 : w0.trace = w.trace := by rw [← hw0def]
  have hbelow := fire_below_count delOk w0 N hrc
  -- the state before the last run
  obtain ⟨htl, hosl⟩ := hbelow (N - 1) (by omega)
  have hlast1 : (fire delOk (N - 1) w0).timer.repeat_count = 1 := by
    rw [htl]
    simp only
    omega
  have hlastid : (fire delOk (N - 1) w0).timer.timer_id = w.timer.timer_id := by
    rw [htl, ht0]
  have hN1 : N = (N - 1) + 1 := by omega
  have hfireN : fire delOk N w0
      = linux_timer_thread true TimerPtr.obj (fire delOk (N - 1) w0) := by
    conv_lhs => rw [hN1]
    simp only [fire, hok]
  have hstepN := thread_count_one (fire delOk (N - 1) w0) hlast1 (by rw [hlastid]; exact hid)
  obtain ⟨htk, hosk⟩ := hbelow k hk
  refine ⟨rfl, ?_, ?_, ?_, ?_, ?_, ?_⟩
  · rw [htk, ht0]
  · rw [hosk, hos0]
  · by_cases hkN : k + 1 = N
    · have hkN1 : k = N - 1 := by omega
      subst hkN1
      rw [← hN1, hfireN, hstepN]
      simp [hlastid]
    · have hgt : 1 < (fire delOk k w0).timer.repeat_count := by
        rw [htk]
        simp only
        omega
      simp only [fire]
      rw [thread_count_gt_one _ _ hgt]
      simp [hkN]
  · rw [hfireN, hstepN, htl, ht0]
  · rw [hfireN, hstepN]
    simp [os_timer_delete, hlastid, List.mem_filter]
  · have hc := (fire_callback_count delOk w0 N).2
    rw [hc, htr0, ht0]

/-- Witness for C1: a Timer armed with handle 5 and callback 9, `N = 3`,
`k = 2`. -/
theorem repeat_count_firings_witness :
    (fire (fun _ => true) 2
        (linux_timer_set_repeat_count TimerPtr.obj ((3 : Nat) : Int)
          { timer := { linux_timer_zero with timer_id := 5, timer_cb := some 9 },
            os := { live := [5], sched := [] }, trace := [] }).2).timer
      = { timer_id := 5, timer_cb := some 9,
          repeat_count := ((3 : Nat) : Int) - ((2 : Nat) : Int), user_data := 0, timeout := 0 }
    ∧ (fire (fun _ => true) 3
        (linux_timer_set_repeat_count TimerPtr.obj ((3 : Nat) : Int)
          { timer := { linux_timer_zero with timer_id := 5, timer_cb := some 9 },
            os := { live := [5], sched := [] }, trace := [] }).2).timer
      = { timer_id := 0, timer_cb := some 9, repeat_count := 0, user_data := 0, timeout := 0 } :=
  ⟨(repeat_count_firings
      { timer := { linux_timer_zero with timer_id := 5, timer_cb := some 9 },
        os := { live := [5], sched := [] }, trace := [] } 3 2 (fun _ => true)
      (by decide) (by decide) (by decide) rfl (by decide)).2.1,
   (repeat_count_firings
      { timer := { linux_timer_zero with timer_id := 5, timer_cb := some 9 },
        os := { live := [5], sched := [] }, trace := [] } 3 2 (fun _ => true)
      (by decide) (by decide) (by decide) rfl (by decide)).2.2.2.2.1⟩

/-! ## C10: the count policy of the dispatch handler -/

/-- C10, as stated, fails: a Timer created through the API and given the
count 0 by `linux_timer_set_repeat_count` is deleted by its next firing
(handle cleared, OS handle released) although that firing decrements nothing:
the count is 0 before and after. -/
theorem thread_deletes_without_decrement :
    (linux_timer_set_repeat_count TimerPtr.obj 0 World.created).1 = true
    ∧ (linux_timer_set_repeat_count TimerPtr.obj 0 World.created).2.timer.timer_id = 5
    ∧ 5 ∈ (linux_timer_set_repeat_count TimerPtr.obj 0 World.created).2.os.live
    ∧ (linux_timer_set_repeat_count TimerPtr.obj 0 World.created).2.timer.repeat_count = 0
    ∧ (linux_timer_thread true TimerPtr.obj
        (linux_timer_set_repeat_count TimerPtr.obj 0 World.created).2).timer.repeat_count = 0
    ∧ (linux_timer_thread true TimerPtr.obj
        (linux_timer_set_repeat_count TimerPtr.obj 0 World.created).2).timer.timer_id = 0
    ∧ 5 ∉ (linux_timer_thread true TimerPtr.obj
        (linux_timer_set_repeat_count TimerPtr.obj 0 World.created).2).os.live := by
  decide

/-- C10, amended: one run of `linux_timer_thread` on a non-null Timer changes
`repeat_count` only by decrementing it by one when it is positive and leaves
callback, user data and timeout alone.  It calls `linux_timer_delete` exactly
when the count after that step is 0, whether it was decremented from 1 or was
0 already: with a non-zero count after the step, handle and OS state are
unchanged and the trace gains the callback invocation alone; with a zero
count, the release call for a set handle is made before the callback, the
handle is cleared when the OS release succeeds (and kept when it fails).  A
Timer with a negative count keeps count, handle and OS state through any
number of firings. -/
theorem thread_count_policy (w : World) (d : Bool) (delOk : Nat → Bool) (k : Nat) :
    (linux_timer_thread d TimerPtr.obj w).timer.repeat_count
        = (if w.timer.repeat_count > 0 then w.timer.repeat_count - 1 else w.timer.repeat_count)
    ∧ (linux_timer_thread d TimerPtr.obj w).timer.timer_cb = w.timer.timer_cb
    ∧ (linux_timer_thread d TimerPtr.obj w).timer.user_data = w.timer.user_data
    ∧ (linux_timer_thread d TimerPtr.obj w).timer.timeout = w.timer.timeout
    ∧ ((linux_timer_thread d TimerPtr.obj w).timer.repeat_count ≠ 0 →
        (linux_timer_thread d TimerPtr.obj w).timer.timer_id = w.timer.timer_id
        ∧ (linux_timer_thread d TimerPtr.obj w).os = w.os
        ∧ (linux_timer_thread d TimerPtr.obj w).trace
            = callback_events (linux_timer_thread d TimerPtr.obj w).timer ++ w.trace)
    ∧ ((linux_timer_thread d TimerPtr.obj w).timer.repeat_count = 0 →
        (linux_timer_thread d TimerPtr.obj w).timer.timer_id
            = (if d = true then 0 else w.timer.timer_id)
        ∧ (linux_timer_thread d TimerPtr.obj w).os
            = (if w.timer.timer_id = 0 then w.os
               else (os_timer_delete d w.timer.timer_id w).os)
        ∧ (linux_timer_thread d TimerPtr.obj w).trace
            = callback_events (linux_timer_thread d TimerPtr.obj w).timer
              ++ (if w.timer.timer_id = 0 then []
                  else [Event.os_timer_delete w.timer.timer_id d])
              ++ w.trace)
    ∧ (w.timer.repeat_count < 0 →
        (fire delOk k w).timer = w.timer ∧ (fire delOk k w).os = w.os) := by
  refine ⟨?_, ?_, ?_, ?_, ?_, ?_, fun h => fire_negative delOk w h k⟩ <;>
    cases hcb : w.timer.timer_cb <;> cases d <;>
    by_cases h0 : w.timer.repeat_count > 0 <;>
    by_cases h1 : w.timer.repeat_count - 1 = 0 <;>
    by_cases h2 : w.timer.repeat_count = 0 <;>
    by_cases h3 : w.timer.timer_id = 0 <;>
    simp [linux_timer_thread, linux_timer_delete, os_timer_delete, callback_events,
      hcb, h0, h1, h2, h3]

/-- Witness for the amended C10: the created Timer (count -1) fired once and
seven times, and the same Timer with count 1 fired once. -/
theorem thread_count_policy_witness :
    ((linux_timer_thread true TimerPtr.obj World.created).timer.timer_id
        = World.created.timer.timer_id
      ∧ (linux_timer_thread true TimerPtr.obj World.created).os = World.created.os
      ∧ (linux_timer_thread true TimerPtr.obj World.created).trace
          = callback_events (linux_timer_thread true TimerPtr.obj World.created).timer
            ++ World.created.trace)
    ∧ ((fire (fun _ => true) 7 World.created).timer = World.created.timer
      ∧ (fire (fun _ => true) 7 World.created).os = World.created.os)
    ∧ (linux_timer_thread true TimerPtr.obj
        (linux_timer_set_repeat_count TimerPtr.obj 1 World.created).2).timer.timer_id
        = (if true = true then 0
           else (linux_timer_set_repeat_count TimerPtr.obj 1 World.created).2.timer.timer_id) :=
  ⟨(thread_count_policy World.created true (fun _ => true) 7).2.2.2.2.1 (by decide),
   (thread_count_policy World.created true (fun _ => true) 7).2.2.2.2.2.2 (by decide),
   ((thread_count_policy (linux_timer_set_repeat_count TimerPtr.obj 1 World.created).2 true
      (fun _ => true) 7).2.2.2.2.2.1 (by decide)).1⟩

/-! ## C2: failure of create -/

/-- C2, evaluated on the code: when `timer_create` fails, create returns
false and the OS state is as before (nothing was acquired).  When
`timer_create` returns handle `id` and `timer_settime` then fails, create
returns false after exactly those two OS calls, none of them a release: the
handle is still allocated, and is left in the Timer handle field. -/
theorem linux_timer_create_arm_failure_keeps_handle (w : World) (id : Nat) (armOk : Bool)
    (cb : Option Nat) (timeout ud : Nat) :
    (linux_timer_create none armOk cb timeout ud w).1 = false
    ∧ (linux_timer_create none armOk cb timeout ud w).2.os = w.os
    ∧ (linux_timer_create (some id) false cb timeout ud w).1 = false
    ∧ id ∈ (linux_timer_create (some id) false cb timeout ud w).2.os.live
    ∧ (linux_timer_create (some id) false cb timeout ud w).2.timer.timer_id = id
    ∧ (linux_timer_create (some id) false cb timeout ud w).2.trace
        = Event.os_timer_settime id
            { it_interval := ms_to_timespec timeout, it_value := ms_to_timespec timeout } false
          :: Event.os_timer_create ClockId.CLOCK_MONOTONIC create_sigevent (some id)
          :: w.trace := by
  simp [linux_timer_create, os_timer_create, os_timer_settime]

/-! ## C7: operations on a Timer whose handle is unset -/

/-- C7, as stated, fails: on a zero-initialised Timer (handle unset)
`linux_timer_set_cb` neither returns false nor leaves the Timer unchanged. -/
theorem set_cb_on_unset_handle_changes_state :
    World.start.timer.timer_id = 0
    ∧ ¬ ((linux_timer_set_cb TimerPtr.obj (some 9) World.start).1 = false
          ∨ (linux_timer_set_cb TimerPtr.obj (some 9) World.start).2.timer
              = World.start.timer) := by
  decide

/-- C7, amended: on a Timer whose handle is unset, no lifecycle operation
other than create sets the handle.  delete returns true and changes nothing
(no OS call, no field); set_cb and set_repeat_count return true, make no OS
call and overwrite exactly their one field; ready, pause and resume leave
every Timer field unchanged; set_timeout leaves handle, callback, repeat
count and user data unchanged.  Nothing is stated on what the four arming
functions return or on the effect of the arm call they make with the unset
handle. -/
theorem unset_handle_operations (w : World) (d armOk : Bool) (cb : Option Nat) (n : Int)
    (t : Nat) (hid : w.timer.timer_id = 0) :
    linux_timer_delete d w = (true, w)
    ∧ (linux_timer_set_cb TimerPtr.obj cb w
          = (true, { w with timer := { w.timer with timer_cb := cb } })
      ∧ (linux_timer_set_cb TimerPtr.obj cb w).2.timer.timer_id = 0)
    ∧ (linux_timer_set_repeat_count TimerPtr.obj n w
          = (true, { w with timer := { w.timer with repeat_count := n } })
      ∧ (linux_timer_set_repeat_count TimerPtr.obj n w).2.timer.timer_id = 0)
    ∧ ((linux_timer_ready armOk TimerPtr.obj w).2.timer = w.timer
      ∧ (linux_timer_pause armOk TimerPtr.obj w).2.timer = w.timer
      ∧ (linux_timer_resume armOk TimerPtr.obj w).2.timer = w.timer)
    ∧ ((linux_timer_set_timeout armOk TimerPtr.obj t w).2.timer.timer_id = 0
      ∧ (linux_timer_set_timeout armOk TimerPtr.obj t w).2.timer.timer_cb = w.timer.timer_cb
      ∧ (linux_timer_set_timeout armOk TimerPtr.obj t w).2.timer.repeat_count
          = w.timer.repeat_count
      ∧ (linux_timer_set_timeout armOk TimerPtr.obj t w).2.timer.user_data
          = w.timer.user_data) := by
  refine ⟨?_, ⟨rfl, hid⟩, ⟨rfl, hid⟩, ⟨?_, ?_, ?_⟩, ?_⟩
  · simp [linux_timer_delete, hid]
  · cases armOk <;> simp [linux_timer_ready, os_timer_settime]
  · cases armOk <;> simp [linux_timer_pause, os_timer_settime]
  · cases armOk <;> simp [linux_timer_resume, os_timer_settime]
  · cases armOk <;> simp [linux_timer_set_timeout, os_timer_settime, hid]

/-- Witness for the amended C7: the zero-initialised Timer. -/
theorem unset_handle_operations_witness :
    World.start.timer.timer_id = 0
    ∧ linux_timer_delete false World.start = (true, World.start)
    ∧ (linux_timer_set_cb TimerPtr.obj (some 9) World.start
          = (true, { World.start with
                      timer := { World.start.timer with timer_cb := some 9 } })
      ∧ (linux_timer_set_cb TimerPtr.obj (some 9) World.start).2.timer.timer_id = 0)
    ∧ (linux_timer_set_repeat_count TimerPtr.obj 3 World.start
          = (true, { World.start with
                      timer := { World.start.timer with repeat_count := 3 } })
      ∧ (linux_timer_set_repeat_count TimerPtr.obj 3 World.start).2.timer.timer_id = 0)
    ∧ ((linux_timer_ready true TimerPtr.obj World.start).2.timer = World.start.timer
      ∧ (linux_timer_pause true TimerPtr.obj World.start).2.timer = World.start.timer
      ∧ (linux_timer_resume true TimerPtr.obj World.start).2.timer = World.start.timer)
    ∧ ((linux_timer_set_timeout true TimerPtr.obj 250 World.start).2.timer.timer_id = 0
      ∧ (linux_timer_set_timeout true TimerPtr.obj 250 World.start).2.timer.timer_cb
          = World.start.timer.timer_cb
      ∧ (linux_timer_set_timeout true TimerPtr.obj 250 World.start).2.timer.repeat_count
          = World.start.timer.repeat_count
      ∧ (linux_timer_set_timeout true TimerPtr.obj 250 World.start).2.timer.user_data
          = World.start.timer.user_data) :=
  ⟨by decide, unset_handle_operations World.start false true (some 9) 3 250 (by decide)⟩

/-! ## C8: the stored timeout and the schedule last applied -/

/-- C8, as stated, fails: after a successful create with timeout 100 ms and
a successful pause, the schedule most recently applied successfully to the OS
timer has interval zero, while the stored timeout is still 100. -/
theorem pause_breaks_timeout_interval_match :
    (linux_timer_create (some 5) true (some 9) 100 0 World.start).1 = true
    ∧ (run_ops [Op.pause true] World.created).timer.timeout = 100
    ∧ last_applied_interval (run_ops [Op.pause true] World.created).timer.timer_id
          (run_ops [Op.pause true] World.created).trace
        = some { tv_sec := 0, tv_nsec := 0 }
    ∧ ¬ (last_applied_interval (run_ops [Op.pause true] World.created).timer.timer_id
            (run_ops [Op.pause true] World.created).trace
          = some (ms_to_timespec (run_ops [Op.pause true] World.created).timer.timeout)) := by
  decide

/-- C8, amended: in every state reached from a successful create by any
sequence of set_cb, set_timeout, set_repeat_count, ready, pause and resume
calls, each OS call succeeding or failing, the stored timeout is a 32-bit
value, the schedule the OS holds for the Timer handle is the one most
recently applied successfully, and that schedule either is the all-zero
(disarming) schedule, as pause applies it, or has the stored timeout as its
repeat interval. -/
theorem stored_timeout_matches_last_armed (w0 : World) (createRes : Option Nat)
    (armOk : Bool) (cb : Option Nat) (timeout ud : Nat) (ops : List Op)
    (hc : (linux_timer_create createRes armOk cb timeout ud w0).1 = true) :
    (run_ops ops (linux_timer_create createRes armOk cb timeout ud w0).2).timer.timeout
        < 4294967296
    ∧ os_schedule (run_ops ops (linux_timer_create createRes armOk cb timeout ud w0).2).os
          (run_ops ops (linux_timer_create createRes armOk cb timeout ud w0).2).timer.timer_id
        = last_applied
            (run_ops ops (linux_timer_create createRes armOk cb timeout ud w0).2).timer.timer_id
            (run_ops ops (linux_timer_create createRes armOk cb timeout ud w0).2).trace
    ∧ (last_applied
            (run_ops ops (linux_timer_create createRes armOk cb timeout ud w0).2).timer.timer_id
            (run_ops ops (linux_timer_create createRes armOk cb timeout ud w0).2).trace
          = some itimerspec_zero
        ∨ last_applied_interval
            (run_ops ops (linux_timer_create createRes armOk cb timeout ud w0).2).timer.timer_id
            (run_ops ops (linux_timer_create createRes armOk cb timeout ud w0).2).trace
          = some (ms_to_timespec
              (run_ops ops
                (linux_timer_create createRes armOk cb timeout ud w0).2).timer.timeout)) :=
  timeout_inv_run_ops ops _ (timeout_inv_create w0 createRes armOk cb timeout ud hc)

/-- Witness for the amended C8: create with 100 ms, then pause, a rejected
set_timeout, resume, and an accepted set_timeout to 30 ms. -/
theorem stored_timeout_matches_last_armed_witness :
    (linux_timer_create (some 5) true (some 9) 100 0 World.start).1 = true
    ∧ os_schedule
          (run_ops [Op.pause true, Op.set_timeout false 70, Op.resume true,
              Op.set_timeout true 30]
            (linux_timer_create (some 5) true (some 9) 100 0 World.start).2).os
          (run_ops [Op.pause true, Op.set_timeout false 70, Op.resume true,
              Op.set_timeout true 30]
            (linux_timer_create (some 5) true (some 9) 100 0 World.start).2).timer.timer_id
        = last_applied
            (run_ops [Op.pause true, Op.set_timeout false 70, Op.resume true,
                Op.set_timeout true 30]
              (linux_timer_create (some 5) true (some 9) 100 0 World.start).2).timer.timer_id
            (run_ops [Op.pause true, Op.set_timeout false 70, Op.resume true,
                Op.set_timeout true 30]
              (linux_timer_create (some 5) true (some 9) 100 0 World.start).2).trace :=
  ⟨by decide,
   (stored_timeout_matches_last_armed World.start (some 5) true (some 9) 100 0
      [Op.pause true, Op.set_timeout false 70, Op.resume true, Op.set_timeout true 30]
      (by decide)).2.1⟩

end LinuxTimer
